import Mathlib

/-!
# Bick's Boutique booking front end

A shallow embedding of `src/assets/js/api.js` (the `ApiService` wrapper around
three REST endpoints) and of `src/assets/js/booking.js` (the booking flow
controller with its payment-verification poller), followed by the properties
of the specification that were checked against it.

Conventions of the embedding.

* An `async` function is modelled by passing in the outcome of the call it
  awaits; `setTimeout` is modelled by a pending call stored in the page, fired
  by `runTimers`.
* The DOM is modelled by the few values the code writes: the id of the step
  that carries `active-step`, the progress index, the error texts, the inline
  date error, the loading overlay and the room list.  The elements the code
  looks up are taken to exist.
* `Date` values are milliseconds since the epoch, as integers.
-/

namespace BicksBoutique

/-! ## Strings -/

/-- Substring test on character lists: does `pat` occur in the first list. -/
def includesChars : List Char → List Char → Bool
  | [], pat => pat.isEmpty
  | c :: cs, pat => pat.isPrefixOf (c :: cs) || includesChars cs pat

/-- JavaScript `s.includes(pat)`. -/
def includes (s pat : String) : Bool :=
  includesChars s.data pat.data

/-! ## api.js -/

/-- A property value of a parsed JSON body, as far as the code observes it:
whether it is there, whether it is a string, and otherwise its truthiness and
the text `String(v)` gives. -/
inductive JsValue where
  | undefined
  | string (s : String)
  | other (truthy : Bool) (shown : String)
  deriving DecidableEq

/-- JavaScript truthiness of a property value. -/
def JsValue.truthy : JsValue → Bool
  | .undefined => false
  | .string s => s != ""
  | .other t _ => t

/-- The message `new Error(v)` carries. -/
def JsValue.toMessage : JsValue → String
  | .undefined => ""
  | .string s => s
  | .other _ shown => shown

/-- A parsed JSON body: `null`, or any other value seen through the properties
that can be read on it (a number, string or array has none of the names the
code reads). -/
inductive Json where
  | null
  | value (props : List (String × JsValue))
  deriving DecidableEq

/-- Property read `data.name` on a non-null value. -/
def getProp (props : List (String × JsValue)) (name : String) : JsValue :=
  (props.lookup name).getD .undefined

/-- A `fetch` response: the status code, and what `response.json()` settles
to (`error`: the body is absent or is not JSON, with the parser's message). -/
structure Response where
  status : Nat
  json : Except String Json

/-- The getter `response.ok`: the status is in the range 200-299. -/
def Response.ok (r : Response) : Bool :=
  decide (200 ≤ r.status) && decide (r.status ≤ 299)

/-- The block run when `!response.ok`: the message of the error thrown.  A
body that does not parse, and the `TypeError` raised by reading a property of
`null`, are both swallowed by the inner `catch`. -/
def errorMsg (r : Response) : String :=
  let errorMsg := "Server Error (" ++ toString r.status ++ ")"
  match r.json with
  | .error _ => errorMsg
  | .ok .null => errorMsg
  | .ok (.value props) =>
    if (getProp props "message").truthy then (getProp props "message").toMessage
    else errorMsg

/-- The outer `catch` of `checkAvailability` and `initiateBooking`: an error
whose message contains `Failed to fetch` is replaced by `friendly`. -/
def rethrow (friendly : String) (message : String) : String :=
  if includes message "Failed to fetch" then friendly else message

/-- `ApiService.checkAvailability`, given what `fetch` settles to (`error`: a
rejected `fetch` with its message).  `nullRead` is the message of the
`TypeError` raised by `data.availableRooms` when `data` is `null`. -/
def checkAvailability (nullRead : String) (fetched : Except String Response) :
    Except String JsValue :=
  let body : Except String JsValue :=
    match fetched with
    | .error e => .error e
    | .ok response =>
      if !response.ok then .error (errorMsg response)
      else
        match response.json with
        | .error e => .error e
        | .ok .null => .error nullRead
        | .ok (.value props) => .ok (getProp props "availableRooms")
  match body with
  | .ok rooms => .ok rooms
  | .error message => .error (rethrow "Network error. Please check your connection." message)

/-- `ApiService.initiateBooking`, given what `fetch` settles to. -/
def initiateBooking (fetched : Except String Response) : Except String Json :=
  let body : Except String Json :=
    match fetched with
    | .error e => .error e
    | .ok response =>
      if !response.ok then .error (errorMsg response)
      else response.json
  match body with
  | .ok data => .ok data
  | .error message => .error (rethrow "Network error. Unable to confirm booking." message)

/-- `ApiService.getBookingStatus`, given what `fetch` settles to: the outer
`catch` rethrows the error as it is. -/
def getBookingStatus (fetched : Except String Response) : Except String Json :=
  let body : Except String Json :=
    match fetched with
    | .error e => .error e
    | .ok response =>
      if !response.ok then .error (errorMsg response)
      else response.json
  match body with
  | .ok data => .ok data
  | .error message => .error message

/-! ## booking.js: page model -/

/-- A room offer of the availability response. -/
structure Room where
  id : String
  name : String
  description : Option String
  totalPrice : String
  deriving DecidableEq

/-- The controller's `state` object.  A date is the value of a date input:
`none` for the empty value, `some d` for the text `YYYY-MM-DD` of day `d`
(days since 1970-01-01). -/
structure State where
  checkIn : Option Int
  checkOut : Option Int
  guests : String
  selectedRoom : Option Room
  availableRooms : List Room
  bookingId : Option String
  payLink : Option String
  deriving DecidableEq

/-- One card of the room list. -/
structure Card where
  image : String
  name : String
  desc : String
  price : String
  selectId : String
  deriving DecidableEq

/-- Content of `room-list-container`. -/
inductive RoomList where
  | html (text : String)
  | cards (cs : List Card)
  deriving DecidableEq

/-- The visible URL: `window.location.pathname` and the parameters that
`URLSearchParams(window.location.search)` holds. -/
structure Location where
  pathname : String
  search : List (String × String)
  deriving DecidableEq

/-- A scheduled call `pollBookingStatus(bookingId, attempts)`, due after
`delay` milliseconds. -/
structure PollCall where
  bookingId : String
  attempts : Nat
  delay : Nat
  deriving DecidableEq

/-- The page: location, controller state, the DOM values the controller
writes, the pending poll call, and the log of the calls made to the API. -/
structure Page where
  location : Location
  state : State
  checkInInput : Option Int
  checkOutInput : Option Int
  guestsInput : String
  dateErrorText : String
  dateErrorShown : Bool
  inputError : Bool
  loading : Bool
  roomList : RoomList
  activeStep : String
  progressIndex : Nat
  errorTitle : String
  errorMessage : String
  pending : Option PollCall
  statusCalls : Nat
  availabilityCalls : List (Int × Int × String)
  deriving DecidableEq

/-- Argument of `goToStep`: a number, `'error'` or `'verifying'`. -/
inductive StepArg where
  | num (n : Nat)
  | error
  | verifying
  deriving DecidableEq

/-- The clock of the host: the current instant in milliseconds since the
epoch, and the offset of local time from UTC in minutes (positive east). -/
structure Clock where
  now : Int
  utcOffset : Int
  deriving DecidableEq

/-- What awaiting `ApiService.getBookingStatus(bookingId)` gives the poller:
a result whose `status` property is read (`none`: there is no string status),
or a thrown error (a rejection, or a result that is `null`). -/
inductive PollResult where
  | resolved (status : Option String)
  | rejected (message : String)
  deriving DecidableEq

/-! ## booking.js: helpers -/

def MAX_ATTEMPTS : Nat := 10

def POLL_INTERVAL : Nat := 3000

/-- `goToStep(stepNumber)`: the target element becomes the only one with
`active-step`; `progressIndex` is the bound used for the progress bar (no
entry is highlighted for `'verifying'`, every comparison being false). -/
def goToStep (p : Page) (stepNumber : StepArg) : Page :=
  let targetId :=
    match stepNumber with
    | .error => "step-error"
    | .verifying => "step-verifying"
    | .num n => "step-" ++ toString n
  let progressIndex :=
    match stepNumber with
    | .error => 1
    | .verifying => 0
    | .num n => if n = 5 then 4 else n
  { p with activeStep := targetId, progressIndex := progressIndex }

/-- `showErrorStep(title, msg)`. -/
def showErrorStep (p : Page) (title msg : String) : Page :=
  goToStep { p with errorTitle := title, errorMessage := msg } .error

/-- `showDateError(msg)`. -/
def showDateError (p : Page) (msg : String) : Page :=
  { p with dateErrorText := msg, dateErrorShown := true, inputError := true }

/-- `clearErrors()`. -/
def clearErrors (p : Page) : Page :=
  { p with dateErrorShown := false, inputError := false }

/-- `setLoading(isLoading)`. -/
def setLoading (p : Page) (isLoading : Bool) : Page :=
  { p with loading := isLoading }

/-- `window.history.replaceState({}, document.title, window.location.pathname)`:
the URL keeps its path and loses its query. -/
def replaceState (p : Page) : Page :=
  { p with location := { pathname := p.location.pathname, search := [] } }

/-- `setTimeout(() => pollBookingStatus(bookingId, attempts), delay)`. -/
def setTimeout (p : Page) (bookingId : String) (attempts delay : Nat) : Page :=
  { p with pending := some { bookingId := bookingId, attempts := attempts, delay := delay } }

/-! ## booking.js: rooms -/

/-- The three lines of `renderRooms` that choose the thumbnail of a room. -/
def roomImage (id : String) : String :=
  let image := "assets/images/room1.png"
  let image := if includes id "heritage" then "assets/images/room2.png" else image
  let image := if includes id "courtyard" then "assets/images/room3.png" else image
  image

/-- The card `renderRooms` builds for one room. -/
def roomCard (room : Room) : Card :=
  { image := roomImage room.id
    name := room.name
    desc :=
      match room.description with
      | some d => if d = "" then "A beautiful room." else d
      | none => "A beautiful room."
    price := "$" ++ room.totalPrice
    selectId := room.id }

/-- `renderRooms(rooms)`. -/
def renderRooms (p : Page) (rooms : List Room) : Page :=
  if rooms.length = 0 then
    { p with roomList := .html "<p class=\"text-center\">No rooms available.</p>" }
  else
    { p with roomList := .cards (rooms.map roomCard) }

/-! ## booking.js: search -/

def msPerDay : Int := 86400000

/-- `new Date("YYYY-MM-DD")` for day `d`: a date-only text is read as
midnight UTC.  The day is taken to lie in the range of `Date`; outside it the
code gets an invalid date. -/
def newDate (d : Int) : Int :=
  d * msPerDay

/-- The local calendar date at the clock's instant. -/
def Clock.today (c : Clock) : Int :=
  (c.now + c.utcOffset * 60000) / msPerDay

/-- `now = new Date(); now.setHours(0, 0, 0, 0)`: midnight of the local
calendar date, as an instant.  The offset of the clock is taken to be the one
in force at that midnight (no change of offset earlier in the day). -/
def Clock.localMidnight (c : Clock) : Int :=
  c.today * msPerDay - c.utcOffset * 60000

/-- `window.searchAvailability`, given the clock and what
`ApiService.checkAvailability` settles to for the submitted criteria. -/
def searchAvailability (clock : Clock)
    (api : Int → Int → String → Except String (List Room)) (p : Page) : Page :=
  let p := clearErrors p
  let guests := p.guestsInput
  match p.checkInInput, p.checkOutInput with
  | some checkIn, some checkOut =>
    let checkInDate := newDate checkIn
    let checkOutDate := newDate checkOut
    let now := clock.localMidnight
    if checkInDate < now then
      showDateError p "Check-in date cannot be in the past."
    else if checkInDate ≥ checkOutDate then
      showDateError p "Check-out date must be after check-in date."
    else
      let p := { p with state := { p.state with
        checkIn := some checkIn, checkOut := some checkOut, guests := guests } }
      let p := setLoading p true
      let p := { p with availabilityCalls := p.availabilityCalls ++ [(checkIn, checkOut, guests)] }
      let p :=
        match api checkIn checkOut guests with
        | .ok rooms =>
          goToStep (renderRooms { p with state := { p.state with availableRooms := rooms } } rooms)
            (.num 2)
        | .error message => showErrorStep p "Availability Search Failed" message
      setLoading p false
  | _, _ => showDateError p "Please select both check-in and check-out dates."

/-! ## booking.js: payment verification -/

/-- `handlePaymentSuccess()`. -/
def handlePaymentSuccess (p : Page) : Page :=
  replaceState (goToStep p (.num 5))

/-- `handlePaymentFailure(reason)`. -/
def handlePaymentFailure (p : Page) (reason : String) : Page :=
  replaceState (showErrorStep p "Payment Failed" reason)

/-- One run of `pollBookingStatus(bookingId, attempts)`, given what the
awaited `ApiService.getBookingStatus(bookingId)` gives. -/
def pollBookingStatus (p : Page) (bookingId : String) (attempts : Nat)
    (result : PollResult) : Page :=
  let p := { p with statusCalls := p.statusCalls + 1 }
  match result with
  | .resolved status =>
    if status = some "CONFIRMED" then
      handlePaymentSuccess p
    else if status = some "PAYMENT_FAILED" then
      handlePaymentFailure p "Payment declined or failed."
    else if status = some "CANCELLED" then
      handlePaymentFailure p "Payment was cancelled."
    else if status = some "AWAITING_PAYMENT" ∧ attempts < MAX_ATTEMPTS then
      setTimeout p bookingId (attempts + 1) POLL_INTERVAL
    else if attempts ≥ MAX_ATTEMPTS then
      handlePaymentFailure p
        "Verification timed out. Please check your email for confirmation or try again."
    else
      setTimeout p bookingId (attempts + 1) POLL_INTERVAL
  | .rejected _ =>
    if attempts < MAX_ATTEMPTS then
      setTimeout p bookingId (attempts + 1) POLL_INTERVAL
    else
      handlePaymentFailure p "Connection error during verification. Please contact support."

/-- `urlParams.get(name)`: the first value under the name, if any. -/
def urlGet (search : List (String × String)) (name : String) : Option String :=
  search.lookup name

/-- Truthiness of what `urlParams.get` returns. -/
def truthyParam : Option String → Bool
  | some s => s != ""
  | none => false

/-- `initPaymentVerification()`: the call `pollBookingStatus(bookingId)` it
makes, with the default `attempts = 0`, is left pending with no delay. -/
def initPaymentVerification (p : Page) : Page :=
  let bookingId := urlGet p.location.search "booking_id"
  let status := urlGet p.location.search "status"
  let txRef := urlGet p.location.search "tx_ref"
  match bookingId with
  | some id =>
    if truthyParam bookingId && (truthyParam status || truthyParam txRef) then
      setTimeout (goToStep p .verifying) id 0 0
    else p
  | none => p

/-- The event loop of a verification session: as long as a poll call is
pending it is run, `fuel` times at most; the `n`-th call to
`ApiService.getBookingStatus` of the page settles to `api bookingId n`. -/
def runTimers (api : String → Nat → PollResult) : Nat → Page → Page
  | 0, p => p
  | fuel + 1, p =>
    match p.pending with
    | none => p
    | some call =>
      runTimers api fuel
        (pollBookingStatus { p with pending := none } call.bookingId call.attempts
          (api call.bookingId p.statusCalls))

/-- The session started by `pollBookingStatus(bookingId)`: the call is made
with the default `attempts = 0`. -/
def startPolling (p : Page) (bookingId : String) : Page :=
  setTimeout p bookingId 0 0

/-- A page as it is right after loading the URL: step 1 showing, no call
made.  The date inputs are left empty here; the presets of today and tomorrow
that the controller writes at load depend on the clock and are not read by
payment verification. -/
def loadPage (location : Location) : Page :=
  { location := location
    state :=
      { checkIn := none, checkOut := none, guests := "2", selectedRoom := none
        availableRooms := [], bookingId := none, payLink := none }
    checkInInput := none
    checkOutInput := none
    guestsInput := "2"
    dateErrorText := ""
    dateErrorShown := false
    inputError := false
    loading := false
    roomList := .html ""
    activeStep := "step-1"
    progressIndex := 1
    errorTitle := ""
    errorMessage := ""
    pending := none
    statusCalls := 0
    availabilityCalls := [] }

/-- The URL the payment provider redirects back to in the examples. -/
def returnUrl : Location :=
  { pathname := "/booking.html", search := [("booking_id", "42"), ("status", "successful")] }

/-- Every call reports `AWAITING_PAYMENT`. -/
def alwaysAwaiting : String → Nat → PollResult :=
  fun _ _ => .resolved (some "AWAITING_PAYMENT")

/-- The first `k` calls report `AWAITING_PAYMENT`, every later one `CONFIRMED`. -/
def awaitingThenConfirmed (k : Nat) : String → Nat → PollResult :=
  fun _ n => if n < k then .resolved (some "AWAITING_PAYMENT") else .resolved (some "CONFIRMED")

/-- A page is the result of `handlePaymentSuccess` or of `handlePaymentFailure`. -/
def Page.ended (q : Page) : Prop :=
  (∃ q0, q = handlePaymentSuccess q0) ∨ (∃ q0 reason, q = handlePaymentFailure q0 reason)

/-- A host five hours west of UTC, at 12:00 UTC (07:00 local time) of day
20000 (2024-10-04). -/
def westClock : Clock :=
  { now := 20000 * 86400000 + 43200000, utcOffset := -300 }

/-- The search form filled in with check-in on day 20000 and check-out on the
day after. -/
def searchPage : Page :=
  { loadPage { pathname := "/booking.html", search := [] } with
    checkInInput := some 20000, checkOutInput := some 20001 }

/-- An availability service with no room to offer. -/
def noRooms : Int → Int → String → Except String (List Room) :=
  fun _ _ _ => .ok []

/-! ## Properties of the strings -/

theorem includesChars_iff (s pat : List Char) : includesChars s pat = true ↔ pat <:+: s := by
  induction s with
  | nil =>
    cases pat <;> simp [includesChars]
  | cons c cs ih =>
    simp only [includesChars, Bool.or_eq_true, ih, List.infix_cons_iff, List.isPrefixOf_iff_prefix]

theorem mem_of_includesChars (s : List Char) (c : Char) (pat : List Char)
    (h : includesChars s (c :: pat) = true) : c ∈ s := by
  rw [includesChars_iff] at h
  exact h.subset (List.mem_cons_self c pat)

/-! ## Properties of the poller -/

theorem runTimers_terminal (api : String → Nat → PollResult) (fuel : Nat) (p : Page)
    (h : p.pending = none) : runTimers api fuel p = p := by
  cases fuel <;> simp [runTimers, h]

theorem runTimers_pending (api : String → Nat → PollResult) (fuel : Nat) (p : Page)
    (call : PollCall) (h : p.pending = some call) :
    runTimers api (fuel + 1) p =
      runTimers api fuel
        (pollBookingStatus { p with pending := none } call.bookingId call.attempts
          (api call.bookingId p.statusCalls)) := by
  simp [runTimers, h]

/-- The three ways one run of `pollBookingStatus` can end. -/
theorem pollBookingStatus_cases (p : Page) (bookingId : String) (attempts : Nat)
    (result : PollResult) :
    pollBookingStatus p bookingId attempts result =
        handlePaymentSuccess { p with statusCalls := p.statusCalls + 1 } ∨
    (∃ reason, pollBookingStatus p bookingId attempts result =
        handlePaymentFailure { p with statusCalls := p.statusCalls + 1 } reason) ∨
    (attempts < MAX_ATTEMPTS ∧ pollBookingStatus p bookingId attempts result =
        setTimeout { p with statusCalls := p.statusCalls + 1 } bookingId (attempts + 1)
          POLL_INTERVAL) := by
  unfold pollBookingStatus
  cases result with
  | resolved status =>
    simp only
    split_ifs with h1 h2 h3 h4 h5
    · exact Or.inl rfl
    · exact Or.inr (Or.inl ⟨_, rfl⟩)
    · exact Or.inr (Or.inl ⟨_, rfl⟩)
    · exact Or.inr (Or.inr ⟨h4.2, rfl⟩)
    · exact Or.inr (Or.inl ⟨_, rfl⟩)
    · exact Or.inr (Or.inr ⟨by omega, rfl⟩)
  | rejected message =>
    simp only
    split_ifs with h1
    · exact Or.inr (Or.inr ⟨h1, rfl⟩)
    · exact Or.inr (Or.inl ⟨_, rfl⟩)

theorem ended_search (q : Page) (h : q.ended) : q.location.search = [] := by
  rcases h with ⟨q0, rfl⟩ | ⟨q0, reason, rfl⟩ <;> rfl

theorem ended_step (q : Page) (h : q.ended) :
    q.activeStep = "step-5" ∨ q.activeStep = "step-error" := by
  rcases h with ⟨q0, rfl⟩ | ⟨q0, reason, rfl⟩
  · left; simp [handlePaymentSuccess, replaceState, goToStep]; decide
  · right; rfl

/-- From a pending call with counter `attempts`, the session is over after at
most `d + 1` runs when `MAX_ATTEMPTS - attempts ≤ d`. -/
theorem runTimers_ends (api : String → Nat → PollResult) (d : Nat) :
    ∀ (p : Page) (call : PollCall), p.pending = some call → MAX_ATTEMPTS - call.attempts ≤ d →
      ∃ n, 1 ≤ n ∧ n ≤ d + 1 ∧ (runTimers api (n - 1) p).pending ≠ none ∧
        ∀ fuel, n ≤ fuel →
          (runTimers api fuel p).pending = none ∧ (runTimers api fuel p).ended ∧
          (runTimers api fuel p).statusCalls = p.statusCalls + n ∧
          runTimers api fuel p = runTimers api n p := by
  induction d with
  | zero =>
    intro p call hp hd
    refine ⟨1, le_refl 1, le_refl 1, by simp [runTimers, hp], ?_⟩
    intro fuel hfuel
    obtain ⟨f, rfl⟩ : ∃ f, fuel = f + 1 := ⟨fuel - 1, by omega⟩
    rw [runTimers_pending api f p call hp, runTimers_pending api 0 p call hp]
    rcases pollBookingStatus_cases { p with pending := none } call.bookingId call.attempts
      (api call.bookingId p.statusCalls) with h | ⟨reason, h⟩ | ⟨hlt, _⟩
    · rw [h, runTimers_terminal api f _ rfl, runTimers_terminal api 0 _ rfl]
      exact ⟨rfl, Or.inl ⟨_, rfl⟩, rfl, rfl⟩
    · rw [h, runTimers_terminal api f _ rfl, runTimers_terminal api 0 _ rfl]
      exact ⟨rfl, Or.inr ⟨_, _, rfl⟩, rfl, rfl⟩
    · omega
  | succ d ih =>
    intro p call hp hd
    rcases pollBookingStatus_cases { p with pending := none } call.bookingId call.attempts
      (api call.bookingId p.statusCalls) with h | ⟨reason, h⟩ | ⟨hlt, h⟩
    · refine ⟨1, le_refl 1, by omega, by simp [runTimers, hp], ?_⟩
      intro fuel hfuel
      obtain ⟨f, rfl⟩ : ∃ f, fuel = f + 1 := ⟨fuel - 1, by omega⟩
      rw [runTimers_pending api f p call hp, runTimers_pending api 0 p call hp]
      rw [h, runTimers_terminal api f _ rfl, runTimers_terminal api 0 _ rfl]
      exact ⟨rfl, Or.inl ⟨_, rfl⟩, rfl, rfl⟩
    · refine ⟨1, le_refl 1, by omega, by simp [runTimers, hp], ?_⟩
      intro fuel hfuel
      obtain ⟨f, rfl⟩ : ∃ f, fuel = f + 1 := ⟨fuel - 1, by omega⟩
      rw [runTimers_pending api f p call hp, runTimers_pending api 0 p call hp]
      rw [h, runTimers_terminal api f _ rfl, runTimers_terminal api 0 _ rfl]
      exact ⟨rfl, Or.inr ⟨_, _, rfl⟩, rfl, rfl⟩
    · obtain ⟨n, hn1, hn2, hlive, hn⟩ := ih _ _
        (rfl : (setTimeout { { p with pending := none } with statusCalls := p.statusCalls + 1 }
          call.bookingId (call.attempts + 1) POLL_INTERVAL).pending = some _)
        (by simp only []; omega)
      refine ⟨n + 1, by omega, by omega, ?_, ?_⟩
      · obtain ⟨m, rfl⟩ : ∃ m, n = m + 1 := ⟨n - 1, by omega⟩
        rw [Nat.add_sub_cancel, runTimers_pending api m p call hp, h]
        simpa using hlive
      · intro fuel hfuel
        obtain ⟨f, rfl⟩ : ∃ f, fuel = f + 1 := ⟨fuel - 1, by omega⟩
        rw [runTimers_pending api f p call hp, runTimers_pending api n p call hp, h]
        obtain ⟨h1, h2, h3, h4⟩ := hn f (by omega)
        refine ⟨h1, h2, ?_, ?_⟩
        · rw [h3]; simp only [setTimeout]; omega
        · rw [h4, (hn n (le_refl n)).2.2.2]

/-! ## Properties of the remote access layer -/

theorem digitChar_ne_F (n : Nat) (h : n < 10) : Nat.digitChar n ≠ 'F' := by
  interval_cases n <;> decide

theorem toDigitsCore_ne_F (fuel : Nat) :
    ∀ (n : Nat) (ds : List Char), (∀ c ∈ ds, c ≠ 'F') →
      ∀ c ∈ Nat.toDigitsCore 10 fuel n ds, c ≠ 'F' := by
  induction fuel with
  | zero =>
    intro n ds hds c hc
    exact hds c (by simpa [Nat.toDigitsCore] using hc)
  | succ f ih =>
    intro n ds hds c hc
    have hcons : ∀ c ∈ Nat.digitChar (n % 10) :: ds, c ≠ 'F' := by
      intro c hc
      rcases List.mem_cons.mp hc with rfl | h
      · exact digitChar_ne_F _ (Nat.mod_lt _ (by decide))
      · exact hds c h
    simp only [Nat.toDigitsCore] at hc
    split_ifs at hc
    · exact hcons c hc
    · exact ih _ _ hcons c hc

/-- The fallback message never contains `Failed to fetch`. -/
theorem serverError_not_network (status : Nat) :
    includes ("Server Error (" ++ toString status ++ ")") "Failed to fetch" = false := by
  rw [Bool.eq_false_iff]
  intro h
  have hF : 'F' ∈ ("Server Error (" ++ toString status ++ ")").data :=
    mem_of_includesChars _ 'F' "ailed to fetch".data h
  simp only [String.data_append, List.mem_append] at hF
  rcases hF with (hF | hF) | hF
  · revert hF; decide
  · exact toDigitsCore_ne_F _ _ [] (by simp) 'F' hF rfl
  · revert hF; decide

theorem rethrow_of_not_includes (friendly message : String)
    (h : includes message "Failed to fetch" = false) : rethrow friendly message = message := by
  simp [rethrow, h]

/-- When the first `k` calls report `AWAITING_PAYMENT` and the next one
`CONFIRMED`, with the counter within the budget, the session ends in Success
after `k + 1` calls. -/
theorem runTimers_confirmed (api : String → Nat → PollResult) (k : Nat) :
    ∀ (p : Page) (call : PollCall), p.pending = some call → call.attempts + k ≤ MAX_ATTEMPTS →
      (∀ i, i < k → api call.bookingId (p.statusCalls + i) = .resolved (some "AWAITING_PAYMENT")) →
      api call.bookingId (p.statusCalls + k) = .resolved (some "CONFIRMED") →
      (runTimers api k p).pending ≠ none ∧
      ∀ fuel, k + 1 ≤ fuel →
        (runTimers api fuel p).pending = none ∧
        (runTimers api fuel p).activeStep = "step-5" ∧
        (runTimers api fuel p).statusCalls = p.statusCalls + (k + 1) := by
  induction k with
  | zero =>
    intro p call hp _ _ hc
    refine ⟨by simp [runTimers, hp], ?_⟩
    intro fuel hfuel
    obtain ⟨f, rfl⟩ : ∃ f, fuel = f + 1 := ⟨fuel - 1, by omega⟩
    rw [runTimers_pending api f p call hp]
    rw [Nat.add_zero] at hc
    rw [hc]
    have h : pollBookingStatus { p with pending := none } call.bookingId call.attempts
        (.resolved (some "CONFIRMED")) =
        handlePaymentSuccess { { p with pending := none } with statusCalls := p.statusCalls + 1 } := by
      simp [pollBookingStatus]
    rw [h, runTimers_terminal api f _ rfl]
    refine ⟨rfl, ?_, rfl⟩
    simp [handlePaymentSuccess, replaceState, goToStep]; decide
  | succ k ih =>
    intro p call hp hk ha hc
    have h0 := ha 0 (by omega)
    rw [Nat.add_zero] at h0
    have hlt : call.attempts < MAX_ATTEMPTS := by omega
    have h : pollBookingStatus { p with pending := none } call.bookingId call.attempts
        (.resolved (some "AWAITING_PAYMENT")) =
        setTimeout { { p with pending := none } with statusCalls := p.statusCalls + 1 }
          call.bookingId (call.attempts + 1) POLL_INTERVAL := by
      simp [pollBookingStatus, hlt]
    obtain ⟨hlive, hn⟩ := ih
      (setTimeout { { p with pending := none } with statusCalls := p.statusCalls + 1 }
          call.bookingId (call.attempts + 1) POLL_INTERVAL) _ rfl
      (by simp only []; omega)
      (by
        intro i hi
        have := ha (i + 1) (by omega)
        simpa [setTimeout, Nat.add_assoc, Nat.add_comm 1 i] using this)
      (by simpa [setTimeout, Nat.add_assoc, Nat.add_comm 1 k] using hc)
    refine ⟨?_, ?_⟩
    · rw [runTimers_pending api k p call hp, h0, h]
      exact hlive
    · intro fuel hfuel
      obtain ⟨f, rfl⟩ : ∃ f, fuel = f + 1 := ⟨fuel - 1, by omega⟩
      rw [runTimers_pending api f p call hp, h0, h]
      obtain ⟨h1, h2, h3⟩ := hn f (by omega)
      refine ⟨h1, h2, ?_⟩
      rw [h3]; simp only [setTimeout]; omega

/-- A session that has come to rest after at least one poll has a URL without
query parameters. -/
theorem runTimers_search (api : String → Nat → PollResult) (fuel : Nat) :
    ∀ (p : Page), p.pending ≠ none → (runTimers api fuel p).pending = none →
      (runTimers api fuel p).location.search = [] := by
  induction fuel with
  | zero =>
    intro p hp h
    exact absurd h hp
  | succ f ih =>
    intro p hp h
    obtain ⟨call, hc⟩ := Option.ne_none_iff_exists'.mp hp
    rw [runTimers_pending api f p call hc] at h ⊢
    rcases pollBookingStatus_cases { p with pending := none } call.bookingId call.attempts
      (api call.bookingId p.statusCalls) with e | ⟨reason, e⟩ | ⟨_, e⟩
    · rw [e, runTimers_terminal api f _ rfl]; rfl
    · rw [e, runTimers_terminal api f _ rfl]; rfl
    · rw [e] at h ⊢
      exact ih _ (by simp [setTimeout]) h

theorem initPaymentVerification_no_query (p : Page) (h : p.location.search = []) :
    initPaymentVerification p = p := by
  simp [initPaymentVerification, urlGet, h]

/-- On a host at or east of UTC the validation of `searchAvailability` is the
calendar comparison: it passes exactly when both dates are given, the
check-in is not before the local date and is before the check-out. -/
theorem searchAvailability_east_of_utc (clock : Clock) (h0 : 0 ≤ clock.utcOffset)
    (h1 : clock.utcOffset < 1440) (api : Int → Int → String → Except String (List Room))
    (p : Page) :
    ((p.checkInInput = none ∨ p.checkOutInput = none) →
      searchAvailability clock api p =
        showDateError (clearErrors p) "Please select both check-in and check-out dates.") ∧
    (∀ checkIn checkOut, p.checkInInput = some checkIn → p.checkOutInput = some checkOut →
      (checkIn < clock.today →
        searchAvailability clock api p =
          showDateError (clearErrors p) "Check-in date cannot be in the past.") ∧
      (clock.today ≤ checkIn → checkOut ≤ checkIn →
        searchAvailability clock api p =
          showDateError (clearErrors p) "Check-out date must be after check-in date.") ∧
      (clock.today ≤ checkIn → checkIn < checkOut →
        (searchAvailability clock api p).availabilityCalls =
          p.availabilityCalls ++ [(checkIn, checkOut, p.guestsInput)] ∧
        (searchAvailability clock api p).state.checkIn = some checkIn ∧
        (searchAvailability clock api p).state.checkOut = some checkOut ∧
        (searchAvailability clock api p).dateErrorShown = false)) := by
  have key : ∀ checkIn : Int, newDate checkIn < clock.localMidnight ↔ checkIn < clock.today := by
    intro checkIn
    simp only [newDate, Clock.localMidnight, msPerDay]
    constructor <;> intro h <;> omega
  refine ⟨?_, ?_⟩
  · rintro (h | h)
    · simp [searchAvailability, clearErrors, h]
    · cases hci : p.checkInInput <;> simp [searchAvailability, clearErrors, h, hci]
  · intro checkIn checkOut hci hco
    have hco2 : ∀ a b : Int, newDate a ≥ newDate b ↔ b ≤ a := by
      intro a b
      simp only [newDate, msPerDay]
      constructor <;> intro h <;> omega
    refine ⟨?_, ?_, ?_⟩
    · intro h
      simp [searchAvailability, clearErrors, hci, hco, (key checkIn).mpr h]
    · intro ha hb
      have hn : ¬ newDate checkIn < clock.localMidnight := by rw [key]; omega
      have hg : newDate checkIn ≥ newDate checkOut := (hco2 _ _).mpr hb
      simp [searchAvailability, clearErrors, hci, hco, hn, hg]
    · intro ha hb
      have hn : ¬ newDate checkIn < clock.localMidnight := by rw [key]; omega
      have hg : ¬ newDate checkIn ≥ newDate checkOut := by rw [hco2]; omega
      simp only [searchAvailability, clearErrors, hci, hco, if_neg hn, if_neg hg]
      cases api checkIn checkOut p.guestsInput <;>
        simp [setLoading, showErrorStep, goToStep, renderRooms]
      split_ifs <;> simp

/-! ## The claims -/

/-- C1 (the code departs from it): with `AWAITING_PAYMENT` on every call, the
session started by `pollBookingStatus(bookingId)` is still polling after 10
calls to `getBookingStatus` and comes to rest only after the eleventh. -/
theorem C1_eleven_calls :
    (runTimers alwaysAwaiting 10 (startPolling (loadPage returnUrl) "42")).pending =
      some { bookingId := "42", attempts := 10, delay := 3000 } ∧
    (runTimers alwaysAwaiting 10 (startPolling (loadPage returnUrl) "42")).statusCalls = 10 ∧
    (runTimers alwaysAwaiting 11 (startPolling (loadPage returnUrl) "42")).pending = none ∧
    (runTimers alwaysAwaiting 11 (startPolling (loadPage returnUrl) "42")).statusCalls = 11 := by
  decide

/-- C2 (the code departs from it): after ten `AWAITING_PAYMENT` results the
session makes an eleventh call, and when that one reports `CONFIRMED` it ends
in Success (step 5) with no error message, not in the timeout error. -/
theorem C2_eleventh_call_decides :
    (runTimers (awaitingThenConfirmed 10) 10 (startPolling (loadPage returnUrl) "42")).pending =
      some { bookingId := "42", attempts := 10, delay := 3000 } ∧
    (runTimers (awaitingThenConfirmed 10) 11 (startPolling (loadPage returnUrl) "42")).pending =
      none ∧
    (runTimers (awaitingThenConfirmed 10) 11 (startPolling (loadPage returnUrl) "42")).statusCalls =
      11 ∧
    (runTimers (awaitingThenConfirmed 10) 11 (startPolling (loadPage returnUrl) "42")).activeStep =
      "step-5" ∧
    (runTimers (awaitingThenConfirmed 10) 11 (startPolling (loadPage returnUrl) "42")).errorMessage =
      "" := by
  decide

/-- C3: for every booking id and every sequence of outcomes of
`getBookingStatus`, the session started by `pollBookingStatus(bookingId)`
reaches `handlePaymentSuccess` or `handlePaymentFailure` after a finite number
`n` of attempts (at most 11), exactly `n` calls having been made; from then on
no call is pending and further turns of the event loop change nothing. -/
theorem C3_session_terminates (api : String → Nat → PollResult) (p : Page) (bookingId : String) :
    ∃ n, 1 ≤ n ∧ n ≤ 11 ∧
      (runTimers api (n - 1) (startPolling p bookingId)).pending ≠ none ∧
      ∀ fuel, n ≤ fuel →
        (runTimers api fuel (startPolling p bookingId)).pending = none ∧
        (runTimers api fuel (startPolling p bookingId)).ended ∧
        (runTimers api fuel (startPolling p bookingId)).statusCalls = p.statusCalls + n ∧
        runTimers api fuel (startPolling p bookingId) =
          runTimers api n (startPolling p bookingId) :=
  runTimers_ends api 10 (startPolling p bookingId)
    { bookingId := bookingId, attempts := 0, delay := 0 } rfl (by simp [MAX_ATTEMPTS])

/-- C4: whatever the attempt counter, a poll whose result has status
`CONFIRMED` shows step 5, one with `PAYMENT_FAILED` shows the error step with
'Payment declined or failed.', one with `CANCELLED` shows it with 'Payment was
cancelled.'; in all three no further attempt is scheduled. -/
theorem C4_final_statuses (p : Page) (bookingId : String) (attempts : Nat) :
    (pollBookingStatus p bookingId attempts (.resolved (some "CONFIRMED")) =
        handlePaymentSuccess { p with statusCalls := p.statusCalls + 1 } ∧
      (pollBookingStatus p bookingId attempts (.resolved (some "CONFIRMED"))).activeStep =
        "step-5" ∧
      (pollBookingStatus p bookingId attempts (.resolved (some "CONFIRMED"))).pending =
        p.pending) ∧
    (pollBookingStatus p bookingId attempts (.resolved (some "PAYMENT_FAILED")) =
        handlePaymentFailure { p with statusCalls := p.statusCalls + 1 }
          "Payment declined or failed." ∧
      (pollBookingStatus p bookingId attempts (.resolved (some "PAYMENT_FAILED"))).activeStep =
        "step-error" ∧
      (pollBookingStatus p bookingId attempts (.resolved (some "PAYMENT_FAILED"))).errorMessage =
        "Payment declined or failed." ∧
      (pollBookingStatus p bookingId attempts (.resolved (some "PAYMENT_FAILED"))).pending =
        p.pending) ∧
    (pollBookingStatus p bookingId attempts (.resolved (some "CANCELLED")) =
        handlePaymentFailure { p with statusCalls := p.statusCalls + 1 }
          "Payment was cancelled." ∧
      (pollBookingStatus p bookingId attempts (.resolved (some "CANCELLED"))).activeStep =
        "step-error" ∧
      (pollBookingStatus p bookingId attempts (.resolved (some "CANCELLED"))).errorMessage =
        "Payment was cancelled." ∧
      (pollBookingStatus p bookingId attempts (.resolved (some "CANCELLED"))).pending =
        p.pending) := by
  have e1 : pollBookingStatus p bookingId attempts (.resolved (some "CONFIRMED")) =
      handlePaymentSuccess { p with statusCalls := p.statusCalls + 1 } := by
    simp [pollBookingStatus]
  have e2 : pollBookingStatus p bookingId attempts (.resolved (some "PAYMENT_FAILED")) =
      handlePaymentFailure { p with statusCalls := p.statusCalls + 1 }
        "Payment declined or failed." := by
    simp [pollBookingStatus]
  have e3 : pollBookingStatus p bookingId attempts (.resolved (some "CANCELLED")) =
      handlePaymentFailure { p with statusCalls := p.statusCalls + 1 }
        "Payment was cancelled." := by
    simp [pollBookingStatus]
  refine ⟨⟨e1, ?_, ?_⟩, ⟨e2, ?_, ?_, ?_⟩, ⟨e3, ?_, ?_, ?_⟩⟩
  · rw [e1]; simp [handlePaymentSuccess, replaceState, goToStep]; decide
  · rw [e1]; rfl
  · rw [e2]; rfl
  · rw [e2]; rfl
  · rw [e2]; rfl
  · rw [e3]; rfl
  · rw [e3]; rfl
  · rw [e3]; rfl

/-- C5: when a verification session has come to rest (through any of its
terminal paths), the URL carries no query parameters, and
`initPaymentVerification` run on a page loaded from that URL leaves the page
as loaded: the Verifying step is not shown and no poll call is pending. -/
theorem C5_no_reverification (api : String → Nat → PollResult) (p : Page) (bookingId : String)
    (fuel : Nat) (h : (runTimers api fuel (startPolling p bookingId)).pending = none) :
    (runTimers api fuel (startPolling p bookingId)).location.search = [] ∧
    initPaymentVerification (loadPage (runTimers api fuel (startPolling p bookingId)).location) =
      loadPage (runTimers api fuel (startPolling p bookingId)).location ∧
    (initPaymentVerification
      (loadPage (runTimers api fuel (startPolling p bookingId)).location)).activeStep ≠
        "step-verifying" ∧
    (initPaymentVerification
      (loadPage (runTimers api fuel (startPolling p bookingId)).location)).pending = none := by
  have hs := runTimers_search api fuel (startPolling p bookingId) (by simp [startPolling, setTimeout]) h
  have hi := initPaymentVerification_no_query
    (loadPage (runTimers api fuel (startPolling p bookingId)).location) hs
  refine ⟨hs, hi, ?_, ?_⟩
  · rw [hi]; simp only [loadPage]; decide
  · rw [hi]; rfl

theorem C5_no_reverification_witness :
    (runTimers alwaysAwaiting 11 (startPolling (loadPage returnUrl) "42")).pending = none ∧
    (runTimers alwaysAwaiting 11 (startPolling (loadPage returnUrl) "42")).location.search = [] ∧
    initPaymentVerification
        (loadPage (runTimers alwaysAwaiting 11 (startPolling (loadPage returnUrl) "42")).location) =
      loadPage (runTimers alwaysAwaiting 11 (startPolling (loadPage returnUrl) "42")).location :=
  ⟨by decide,
    (C5_no_reverification alwaysAwaiting (loadPage returnUrl) "42" 11 (by decide)).1,
    (C5_no_reverification alwaysAwaiting (loadPage returnUrl) "42" 11 (by decide)).2.1⟩

/-- C6 as stated fails: the id `heritage-courtyard` contains `heritage`, yet
its thumbnail is `room3.png`, not `room2.png`. -/
theorem C6_counterexample :
    includes "heritage-courtyard" "heritage" = true ∧
    roomImage "heritage-courtyard" = "assets/images/room3.png" ∧
    roomImage "heritage-courtyard" ≠ "assets/images/room2.png" := by
  decide

/-- C6 as amended: the thumbnail is `room3.png` if the id contains
`courtyard`, otherwise `room2.png` if it contains `heritage`, otherwise
`room1.png`; the later rule wins when both match. -/
theorem C6_room_image (id : String) :
    roomImage id =
      if includes id "courtyard" then "assets/images/room3.png"
      else if includes id "heritage" then "assets/images/room2.png"
      else "assets/images/room1.png" := by
  unfold roomImage
  by_cases h1 : includes id "courtyard" = true <;> by_cases h2 : includes id "heritage" = true <;>
    simp [h1, h2]

/-- C7 (the code departs from it): on a host west of UTC, a check-in on the
current local date with a check-out on the next day is turned down with
'Check-in date cannot be in the past.'; no availability call is made and the
state is left as it was. -/
theorem C7_today_rejected_west_of_utc :
    westClock.today = 20000 ∧
    searchPage.checkInInput = some 20000 ∧
    searchPage.checkOutInput = some 20001 ∧
    (searchAvailability westClock noRooms searchPage).dateErrorShown = true ∧
    (searchAvailability westClock noRooms searchPage).dateErrorText =
      "Check-in date cannot be in the past." ∧
    (searchAvailability westClock noRooms searchPage).availabilityCalls = [] ∧
    (searchAvailability westClock noRooms searchPage).state = searchPage.state := by
  decide

/-- C8 as stated fails: a body whose `message` is the empty text gives the
fallback 'Server Error (500)', and a server message that contains 'Failed to
fetch' is replaced by the network-error text in `checkAvailability` and
`initiateBooking`. -/
theorem C8_counterexample :
    getBookingStatus (.ok { status := 500, json := .ok (.value [("message", .string "")]) }) =
      .error "Server Error (500)" ∧
    checkAvailability ""
        (.ok { status := 500
               json := .ok (.value [("message", .string "Failed to fetch rooms from the database")]) }) =
      .error "Network error. Please check your connection." ∧
    initiateBooking
        (.ok { status := 500
               json := .ok (.value [("message", .string "Failed to fetch rooms from the database")]) }) =
      .error "Network error. Unable to confirm booking." := by
  refine ⟨?_, ?_, ?_⟩ <;> rfl

/-- C8 as amended: for every non-success status and every body, each of the
three operations fails; the error message is the body's `message` field when
the body is JSON carrying one that is a non-empty text (for
`checkAvailability` and `initiateBooking`: one that does not contain 'Failed
to fetch'), and is 'Server Error (<status>)' when the body is absent or is not
JSON. -/
theorem C8_error_message (nullRead : String) (status : Nat) (json : Except String Json)
    (hok : Response.ok { status := status, json := json } = false) :
    (∀ props s, json = .ok (.value props) → getProp props "message" = .string s → s ≠ "" →
      getBookingStatus (.ok { status := status, json := json }) = .error s ∧
      (includes s "Failed to fetch" = false →
        checkAvailability nullRead (.ok { status := status, json := json }) = .error s ∧
        initiateBooking (.ok { status := status, json := json }) = .error s)) ∧
    (getBookingStatus (.ok { status := status, json := json }) =
        .error (errorMsg { status := status, json := json }) ∧
      checkAvailability nullRead (.ok { status := status, json := json }) =
        .error (rethrow "Network error. Please check your connection."
          (errorMsg { status := status, json := json })) ∧
      initiateBooking (.ok { status := status, json := json }) =
        .error (rethrow "Network error. Unable to confirm booking."
          (errorMsg { status := status, json := json }))) ∧
    (∀ e, json = .error e →
      getBookingStatus (.ok { status := status, json := json }) =
        .error ("Server Error (" ++ toString status ++ ")") ∧
      checkAvailability nullRead (.ok { status := status, json := json }) =
        .error ("Server Error (" ++ toString status ++ ")") ∧
      initiateBooking (.ok { status := status, json := json }) =
        .error ("Server Error (" ++ toString status ++ ")")) := by
  refine ⟨?_, ⟨?_, ?_, ?_⟩, ?_⟩
  · intro props s hj hm hs
    have hmsg : errorMsg { status := status, json := json } = s := by
      simp [errorMsg, hj, hm, JsValue.truthy, JsValue.toMessage, hs]
    refine ⟨?_, ?_⟩
    · simp [getBookingStatus, hok, hmsg]
    · intro hinc
      simp [checkAvailability, initiateBooking, hok, hmsg, rethrow_of_not_includes _ _ hinc]
  · simp [getBookingStatus, hok]
  · simp [checkAvailability, hok]
  · simp [initiateBooking, hok]
  · intro e hj
    have hmsg : errorMsg { status := status, json := json } =
        "Server Error (" ++ toString status ++ ")" := by
      simp [errorMsg, hj]
    refine ⟨?_, ?_, ?_⟩
    · simp [getBookingStatus, hok, hmsg]
    · simp [checkAvailability, hok, hmsg,
        rethrow_of_not_includes _ _ (serverError_not_network status)]
    · simp [initiateBooking, hok, hmsg,
        rethrow_of_not_includes _ _ (serverError_not_network status)]

theorem C8_error_message_witness :
    Response.ok { status := 409, json := .ok (.value [("message", .string "Room no longer available")]) } =
      false ∧
    getBookingStatus
        (.ok { status := 409, json := .ok (.value [("message", .string "Room no longer available")]) }) =
      .error "Room no longer available" ∧
    checkAvailability ""
        (.ok { status := 409, json := .ok (.value [("message", .string "Room no longer available")]) }) =
      .error "Room no longer available" ∧
    initiateBooking
        (.ok { status := 409, json := .ok (.value [("message", .string "Room no longer available")]) }) =
      .error "Room no longer available" :=
  ⟨by decide,
   ((C8_error_message "" 409 (.ok (.value [("message", .string "Room no longer available")]))
      (by decide)).1 _ "Room no longer available" rfl (by decide) (by decide)).1,
   (((C8_error_message "" 409 (.ok (.value [("message", .string "Room no longer available")]))
      (by decide)).1 _ "Room no longer available" rfl (by decide) (by decide)).2 (by decide)).1,
   (((C8_error_message "" 409 (.ok (.value [("message", .string "Room no longer available")]))
      (by decide)).1 _ "Room no longer available" rfl (by decide) (by decide)).2 (by decide)).2⟩

/-- C9: for every attempt counter and every status other than `CONFIRMED`,
`PAYMENT_FAILED` and `CANCELLED` (an unrecognised text, or none), one poll
leaves the page exactly as it does for `AWAITING_PAYMENT` with the same
counter.  Below 10, for both, the next call is pending with the counter plus
one and a delay of 3000 ms, and the step shown, the error texts and the URL
are untouched; from 10 on, for both, nothing new is pending, the error step is
shown with title 'Payment Failed' and the timeout message, and the URL has
lost its query.  Either way one call to `getBookingStatus` has been made. -/
theorem C9_unknown_status_as_awaiting (p : Page) (bookingId : String) (attempts : Nat)
    (status : Option String) (h1 : status ≠ some "CONFIRMED")
    (h2 : status ≠ some "PAYMENT_FAILED") (h3 : status ≠ some "CANCELLED") :
    pollBookingStatus p bookingId attempts (.resolved status) =
      pollBookingStatus p bookingId attempts (.resolved (some "AWAITING_PAYMENT")) ∧
    (attempts < 10 →
      pollBookingStatus p bookingId attempts (.resolved status) =
        setTimeout { p with statusCalls := p.statusCalls + 1 } bookingId (attempts + 1) 3000 ∧
      (pollBookingStatus p bookingId attempts (.resolved status)).pending =
        some { bookingId := bookingId, attempts := attempts + 1, delay := 3000 } ∧
      (pollBookingStatus p bookingId attempts (.resolved (some "AWAITING_PAYMENT"))).pending =
        some { bookingId := bookingId, attempts := attempts + 1, delay := 3000 } ∧
      (pollBookingStatus p bookingId attempts (.resolved status)).activeStep = p.activeStep ∧
      (pollBookingStatus p bookingId attempts (.resolved status)).errorTitle = p.errorTitle ∧
      (pollBookingStatus p bookingId attempts (.resolved status)).errorMessage =
        p.errorMessage ∧
      (pollBookingStatus p bookingId attempts (.resolved status)).location = p.location ∧
      (pollBookingStatus p bookingId attempts (.resolved status)).statusCalls =
        p.statusCalls + 1) ∧
    (10 ≤ attempts →
      pollBookingStatus p bookingId attempts (.resolved status) =
        handlePaymentFailure { p with statusCalls := p.statusCalls + 1 }
          "Verification timed out. Please check your email for confirmation or try again." ∧
      (pollBookingStatus p bookingId attempts (.resolved status)).pending = p.pending ∧
      (pollBookingStatus p bookingId attempts (.resolved (some "AWAITING_PAYMENT"))).pending =
        p.pending ∧
      (pollBookingStatus p bookingId attempts (.resolved status)).activeStep = "step-error" ∧
      (pollBookingStatus p bookingId attempts (.resolved (some "AWAITING_PAYMENT"))).activeStep =
        "step-error" ∧
      (pollBookingStatus p bookingId attempts (.resolved status)).errorTitle =
        "Payment Failed" ∧
      (pollBookingStatus p bookingId attempts (.resolved status)).errorMessage =
        "Verification timed out. Please check your email for confirmation or try again." ∧
      (pollBookingStatus p bookingId attempts (.resolved (some "AWAITING_PAYMENT"))).errorMessage =
        "Verification timed out. Please check your email for confirmation or try again." ∧
      (pollBookingStatus p bookingId attempts (.resolved status)).location.search = [] ∧
      (pollBookingStatus p bookingId attempts (.resolved status)).location.pathname =
        p.location.pathname ∧
      (pollBookingStatus p bookingId attempts (.resolved status)).statusCalls =
        p.statusCalls + 1) := by
  by_cases hlt : attempts < 10
  · have e : ∀ s : Option String, s ≠ some "CONFIRMED" → s ≠ some "PAYMENT_FAILED" →
        s ≠ some "CANCELLED" → pollBookingStatus p bookingId attempts (.resolved s) =
        setTimeout { p with statusCalls := p.statusCalls + 1 } bookingId (attempts + 1) 3000 := by
      intro s a b c
      have hge : ¬ (attempts ≥ MAX_ATTEMPTS) := by simp [MAX_ATTEMPTS]; omega
      simp only [pollBookingStatus, if_neg a, if_neg b, if_neg c, if_neg hge]
      split_ifs <;> rfl
    have ea := e _ (by decide : (some "AWAITING_PAYMENT" : Option String) ≠ some "CONFIRMED")
      (by decide) (by decide)
    refine ⟨by rw [e status h1 h2 h3, ea], ?_, fun h => absurd h (by omega)⟩
    intro _
    refine ⟨e status h1 h2 h3, ?_, ?_, ?_, ?_, ?_, ?_, ?_⟩
    · rw [e status h1 h2 h3]; rfl
    · rw [ea]; rfl
    · rw [e status h1 h2 h3]; rfl
    · rw [e status h1 h2 h3]; rfl
    · rw [e status h1 h2 h3]; rfl
    · rw [e status h1 h2 h3]; rfl
    · rw [e status h1 h2 h3]; rfl
  · have e : ∀ s : Option String, s ≠ some "CONFIRMED" → s ≠ some "PAYMENT_FAILED" →
        s ≠ some "CANCELLED" → pollBookingStatus p bookingId attempts (.resolved s) =
        handlePaymentFailure { p with statusCalls := p.statusCalls + 1 }
          "Verification timed out. Please check your email for confirmation or try again." := by
      intro s a b c
      have hge : attempts ≥ MAX_ATTEMPTS := by simp [MAX_ATTEMPTS]; omega
      have hnl : ¬ (s = some "AWAITING_PAYMENT" ∧ attempts < MAX_ATTEMPTS) := by
        rintro ⟨_, h⟩; simp [MAX_ATTEMPTS] at h; omega
      simp only [pollBookingStatus, if_neg a, if_neg b, if_neg c, if_neg hnl, if_pos hge]
    have ea := e _ (by decide : (some "AWAITING_PAYMENT" : Option String) ≠ some "CONFIRMED")
      (by decide) (by decide)
    refine ⟨by rw [e status h1 h2 h3, ea], fun h => absurd h hlt, ?_⟩
    intro _
    refine ⟨e status h1 h2 h3, ?_, ?_, ?_, ?_, ?_, ?_, ?_, ?_, ?_, ?_⟩
    · rw [e status h1 h2 h3]; rfl
    · rw [ea]; rfl
    · rw [e status h1 h2 h3]; rfl
    · rw [ea]; rfl
    · rw [e status h1 h2 h3]; rfl
    · rw [e status h1 h2 h3]; rfl
    · rw [ea]; rfl
    · rw [e status h1 h2 h3]; rfl
    · rw [e status h1 h2 h3]; rfl
    · rw [e status h1 h2 h3]; rfl

theorem C9_unknown_status_as_awaiting_witness :
    (some "REFUNDED" ≠ some "CONFIRMED" ∧ some "REFUNDED" ≠ some "PAYMENT_FAILED" ∧
      some "REFUNDED" ≠ some "CANCELLED") ∧
    (pollBookingStatus (loadPage returnUrl) "42" 3 (.resolved (some "REFUNDED")) =
      pollBookingStatus (loadPage returnUrl) "42" 3 (.resolved (some "AWAITING_PAYMENT"))) ∧
    (pollBookingStatus (loadPage returnUrl) "42" 3 (.resolved (some "REFUNDED"))).pending =
      some { bookingId := "42", attempts := 3 + 1, delay := 3000 } ∧
    (pollBookingStatus (loadPage returnUrl) "42" 10 (.resolved none) =
      pollBookingStatus (loadPage returnUrl) "42" 10 (.resolved (some "AWAITING_PAYMENT"))) ∧
    (pollBookingStatus (loadPage returnUrl) "42" 10 (.resolved none)).activeStep = "step-error" ∧
    (pollBookingStatus (loadPage returnUrl) "42" 10 (.resolved none)).errorMessage =
      "Verification timed out. Please check your email for confirmation or try again." :=
  ⟨by decide,
   (C9_unknown_status_as_awaiting (loadPage returnUrl) "42" 3 (some "REFUNDED")
      (by decide) (by decide) (by decide)).1,
   ((C9_unknown_status_as_awaiting (loadPage returnUrl) "42" 3 (some "REFUNDED")
      (by decide) (by decide) (by decide)).2.1 (by decide)).2.1,
   (C9_unknown_status_as_awaiting (loadPage returnUrl) "42" 10 none
      (by decide) (by decide) (by decide)).1,
   ((C9_unknown_status_as_awaiting (loadPage returnUrl) "42" 10 none
      (by decide) (by decide) (by decide)).2.2 (by decide)).2.2.2.1,
   ((C9_unknown_status_as_awaiting (loadPage returnUrl) "42" 10 none
      (by decide) (by decide) (by decide)).2.2 (by decide)).2.2.2.2.2.2.1⟩

/-- C10: for `1 ≤ k ≤ 10`, when the first `k - 1` results of
`getBookingStatus` have status `AWAITING_PAYMENT` and the `k`-th has
`CONFIRMED`, the session started by `pollBookingStatus(bookingId)` is still
polling after `k - 1` calls and ends in Success (step 5) after exactly `k`. -/
theorem C10_confirmed_on_kth_call (api : String → Nat → PollResult) (p : Page)
    (bookingId : String) (k : Nat) (hk1 : 1 ≤ k) (hk10 : k ≤ 10)
    (hAwait : ∀ i, i < k - 1 →
      api bookingId (p.statusCalls + i) = .resolved (some "AWAITING_PAYMENT"))
    (hConf : api bookingId (p.statusCalls + (k - 1)) = .resolved (some "CONFIRMED")) :
    (runTimers api (k - 1) (startPolling p bookingId)).pending ≠ none ∧
    ∀ fuel, k ≤ fuel →
      (runTimers api fuel (startPolling p bookingId)).pending = none ∧
      (runTimers api fuel (startPolling p bookingId)).activeStep = "step-5" ∧
      (runTimers api fuel (startPolling p bookingId)).statusCalls = p.statusCalls + k := by
  obtain ⟨hlive, hn⟩ := runTimers_confirmed api (k - 1) (startPolling p bookingId)
    { bookingId := bookingId, attempts := 0, delay := 0 } rfl
    (by simp [MAX_ATTEMPTS]; omega) hAwait hConf
  refine ⟨hlive, ?_⟩
  intro fuel hfuel
  obtain ⟨a, b, c⟩ := hn fuel (by omega)
  refine ⟨a, b, ?_⟩
  rw [c]
  simp only [startPolling, setTimeout]
  omega

theorem C10_confirmed_on_kth_call_witness :
    (1 ≤ 10 ∧ 10 ≤ 10) ∧
    (runTimers (awaitingThenConfirmed 9) 9 (startPolling (loadPage returnUrl) "42")).pending ≠
      none ∧
    (runTimers (awaitingThenConfirmed 9) 10 (startPolling (loadPage returnUrl) "42")).activeStep =
      "step-5" ∧
    (runTimers (awaitingThenConfirmed 9) 10 (startPolling (loadPage returnUrl) "42")).statusCalls =
      10 :=
  ⟨by decide,
   (C10_confirmed_on_kth_call (awaitingThenConfirmed 9) (loadPage returnUrl) "42" 10
      (by decide) (by decide)
      (by intro i hi; simp [awaitingThenConfirmed, loadPage]; omega)
      (by simp [awaitingThenConfirmed, loadPage])).1,
   ((C10_confirmed_on_kth_call (awaitingThenConfirmed 9) (loadPage returnUrl) "42" 10
      (by decide) (by decide)
      (by intro i hi; simp [awaitingThenConfirmed, loadPage]; omega)
      (by simp [awaitingThenConfirmed, loadPage])).2 10 (le_refl 10)).2.1,
   ((C10_confirmed_on_kth_call (awaitingThenConfirmed 9) (loadPage returnUrl) "42" 10
      (by decide) (by decide)
      (by intro i hi; simp [awaitingThenConfirmed, loadPage]; omega)
      (by simp [awaitingThenConfirmed, loadPage])).2 10 (le_refl 10)).2.2⟩

end BicksBoutique
